import Mathlib

/-!
# Verification of the release orchestration script (`script/release/release.py`)

This file gives a shallow embedding of the release workflow script and of the
external-collaborator contracts it depends on, and proves properties of the
embedded program.

The script drives four top-level actions (`start`, `resume`, `cancel`,
`finalize`).  Effectful collaborator calls (version control, code hosting,
artifact hosting, image builds, interactive prompts) are modelled by an
explicit environment `Env` that supplies each call's result, together with an
explicit world state `State` that the calls mutate.  Each action body returns
an `MRes`: normal completion, a raised exception (the workflow error
`ScriptError` or any other Python exception), or `blocked` for an interactive
loop / unbounded poll that never completes with the supplied environment data.
A trace of `Effect`s records which collaborator operations were performed, in
order, so that frame properties ("this call never happens", "this call happens
before that one") can be stated.
-/

namespace ReleaseScript

/-! ## CI status model (`monitor_pr_status`) -/

/-- State of a single named status check, as reported by the code-hosting
collaborator.  The spec restricts check states to `{pending, success, failure}`. -/
inductive CheckState where
  | pending
  | success
  | failure
deriving DecidableEq, Repr

/-- The combined status object the script reads on each poll:
an aggregate `state` string, the list of per-check states, and the
reported `total_count` of checks. -/
structure CombinedStatus where
  state : String
  statuses : List CheckState
  total_count : Nat
deriving DecidableEq, Repr

/-- Modelled from the spec: the aggregation performed by the code-hosting
collaborator (not code under `src/`).  Per the spec's data model and testable
properties, the aggregate is `failure` if any check fails (an error is raised
"as soon as any check reports failure, without waiting for remaining pending
checks"), `pending` while an incomplete check exists, else `success`. -/
def aggregateState (checks : List CheckState) : String :=
  if CheckState.failure ∈ checks then "failure"
  else if CheckState.pending ∈ checks then "pending"
  else "success"

/-- A combined status is well formed when its `total_count` matches the number
of per-check states and its aggregate `state` string is the spec aggregate of
the per-check states (for a commit with zero checks some hosts report the
aggregate as `pending`, which the second disjunct also admits). -/
def wellFormedStatus (st : CombinedStatus) : Prop :=
  st.total_count = st.statuses.length ∧
  (st.state = aggregateState st.statuses ∨ (st.statuses = [] ∧ st.state = "pending"))

/-- What one iteration of the polling loop in `monitor_pr_status` does with the
combined status it just fetched. -/
inductive GateStep where
  | returnsTrue
  | raisesError (msg : String)
  | sleeps
deriving DecidableEq, Repr

/-- One iteration of the `while True` loop of `monitor_pr_status`
(`release.py:60-79`): on aggregate `pending` it returns immediately when
`total_count == 0` and otherwise sleeps and re-polls; on aggregate `success` it
returns; on anything else it raises `ScriptError('CI failure detected')`. -/
def monitorStep (status : CombinedStatus) : GateStep :=
  if status.state = "pending" then
    if status.total_count = 0 then GateStep.returnsTrue else GateStep.sleeps
  else if status.state = "success" then GateStep.returnsTrue
  else GateStep.raisesError "CI failure detected"

/-- Result of the CI gate once it terminates. -/
inductive GateOutcome where
  | ok
  | err (msg : String)
deriving DecidableEq, Repr

/-- The polling loop of `monitor_pr_status` run against the successive combined
statuses supplied by the environment (one list entry per poll).  `none` means
the loop was still sleeping and re-polling when the supplied poll data ran out
(the real loop has no timeout). -/
def monitor_pr_status : List CombinedStatus → Option GateOutcome
  | [] => none
  | st :: rest =>
    match monitorStep st with
    | GateStep.returnsTrue => some GateOutcome.ok
    | GateStep.raisesError m => some (GateOutcome.err m)
    | GateStep.sleeps => monitor_pr_status rest

/-! ## Exceptions, releases, world state -/

/-- Python exceptions relevant to the script: the single workflow error kind
`ScriptError` (from `release.utils`), the `NotImplementedError` raised by
`finalize`, and an arbitrary other exception a collaborator call may raise. -/
inductive Exc where
  | scriptError (msg : String)
  | notImplementedError
  | otherError (name : String)
deriving DecidableEq, Repr

/-- Whether an exception is the workflow error `ScriptError` (the only class
the action handlers catch). -/
def Exc.isScriptError : Exc → Bool
  | Exc.scriptError _ => true
  | _ => false

/-- A hosted release record (GitHub release): its draft and prerelease flags. -/
structure GhRelease where
  draft : Bool
  prerelease : Bool
deriving DecidableEq, Repr

/-- Modelled from the spec: `branch_name` from `release.utils` (not under
`src/`); the release branch is "derived deterministically from the release
version (`bump-<version>`)". -/
def branch_name (version : String) : String :=
  "bump-" ++ version

/-- The observable world state mutated through the external collaborators, for
the one release version an action run concerns: local branches, the version
recorded in the branch's config region, the version written into the working
tree and into the last bump commit, how many bump commits / pull requests /
release records were ever created, whether a release PR exists, the hosted
release record and its asset list, and the artifact-hosting (bintray)
repositories. -/
structure State where
  localBranches : List String
  branchConfig : Option String
  workingVersion : Option String
  committedVersion : Option String
  commitCount : Nat
  prExists : Bool
  prCreateCount : Nat
  release : Option GhRelease
  releaseCreateCount : Nat
  releaseAssets : List String
  bintrayRepos : List String
deriving DecidableEq, Repr

/-- One collaborator operation performed by the script, recorded in order. -/
inductive Effect where
  | updateVersionFiles (version : String)
  | bumpCommit (version : String)
  | pushBranch (branch : String)
  | createBintrayRepo (branch : String)
  | findPR (version : String)
  | createPR (version : String)
  | checkMergeable
  | ciGate
  | downloadAll (version : String)
  | findRelease (version : String)
  | createRelease (version : String)
  | deleteAssets
  | uploadAssets
  | buildImages (version : String)
  | closePR (version : String)
  | removeRelease (version : String)
  | removeBumpBranch (version : String)
  | bintrayDeleteRepo (branch : String)
deriving DecidableEq, Repr

/-- One structured message of a docker build event stream
(`release.py:123-127`): an optional `error` field and an optional `stream`
field. -/
structure BuildChunk where
  error : Option String
  stream : Option String
deriving DecidableEq, Repr

/-- The environment: results of every external call an action run can make.
Interactive prompts are modelled by the answers the operator types. -/
structure Env where
  diffAnswers : List String
  publicAnswer : String
  mergeable : Bool
  polls : List CombinedStatus
  createRepoResult : Except Exc Unit
  downloadResult : Except Exc (List String)
  buildChunks : List BuildChunk
  testBuildChunks : List BuildChunk
  closePrResult : Except Exc Unit
  removeReleaseResult : Except Exc Unit
  removeBranchResult : Except Exc Unit
deriving Repr

/-- Result of running an action body: normal return, a raised exception, or
`blocked` when an interactive confirmation loop or the unbounded CI poll never
completes with the supplied environment data.  The state and effect trace at
that point are carried along. -/
inductive MRes where
  | ok (s : State) (tr : List Effect)
  | fail (e : Exc) (s : State) (tr : List Effect)
  | blocked (s : State) (tr : List Effect)
deriving DecidableEq, Repr

/-- The state a body run ended in. -/
def MRes.stateOf : MRes → State
  | MRes.ok s _ => s
  | MRes.fail _ s _ => s
  | MRes.blocked s _ => s

/-- The exception a body run raised, if any. -/
def MRes.excOf : MRes → Option Exc
  | MRes.fail e _ _ => some e
  | _ => none

/-! ## The script's functions -/

/-- Python's `str.lower()` (character-wise lowercasing). -/
def pyLower (s : String) : String :=
  String.mk (s.data.map Char.toLower)

/-- The interactive diff-approval loop of `create_bump_commit`
(`release.py:43-46`): the operator is asked until an answer lowercases to
`y`; `true` means some supplied answer eventually does, `false` (used as
`blocked`) means the answers run out first. -/
def confirmLoop : List String → Bool
  | [] => false
  | a :: rest => if pyLower a = "y" then true else confirmLoop rest

/-- Scanning one docker build event stream (`release.py:123-127`): an `error`
field in any chunk raises `ScriptError('Build error: ...')`. -/
def scanBuildStream : List BuildChunk → Except Exc Unit
  | [] => Except.ok ()
  | c :: rest =>
    match c.error with
    | some msg => Except.error (Exc.scriptError ("Build error: " ++ msg))
    | none => scanBuildStream rest

/-- `build_images` (`release.py:111-145`): builds the release image and then
the test image, scanning each build's event stream; container/tag bookkeeping
has no effect on the modelled state. -/
def build_images (env : Env) : Except Exc Unit :=
  match scanBuildStream env.buildChunks with
  | Except.error e => Except.error e
  | Except.ok _ =>
    match scanBuildStream env.testBuildChunks with
    | Except.error e => Except.error e
    | Except.ok _ => Except.ok ()

/-- `create_bump_commit` (`release.py:35-54`): reads the release version from
the branch config region, writes it into the version files, runs the
interactive diff-approval loop, commits only when the working diff is
non-empty, pushes the branch, and provisions the artifact-hosting repository
named after the branch.  Reading a missing config region raises a non-workflow
exception; provisioning an already-existing repository is modelled (from the
spec's provisioning contract) as a no-op on the state. -/
def create_bump_commit (env : Env) (br : String) (s : State) : MRes :=
  match s.branchConfig with
  | none => MRes.fail (Exc.otherError "NoSectionError") s []
  | some rel =>
    let s1 : State := { s with workingVersion := some rel }
    let tr1 : List Effect := [Effect.updateVersionFiles rel]
    if confirmLoop env.diffAnswers then
      let s2 : State :=
        if s1.workingVersion = s1.committedVersion then s1
        else { s1 with
               committedVersion := s1.workingVersion,
               commitCount := s1.commitCount + 1 }
      let tr2 : List Effect :=
        if s1.workingVersion = s1.committedVersion then tr1
        else tr1 ++ [Effect.bumpCommit rel]
      let tr3 : List Effect := tr2 ++ [Effect.pushBranch br, Effect.createBintrayRepo br]
      match env.createRepoResult with
      | Except.error e => MRes.fail e s2 tr3
      | Except.ok _ =>
        MRes.ok { s2 with bintrayRepos :=
                    if br ∈ s2.bintrayRepos then s2.bintrayRepos
                    else br :: s2.bintrayRepos } tr3
    else MRes.blocked s1 tr1

/-- Python's `'-rc' in version` (substring containment): some suffix of the
version's character list starts with `-rc`. -/
def pyContainsRc (version : String) : Bool :=
  (List.range (version.data.length + 1)).any fun i =>
    "-rc".data.isPrefixOf (version.data.drop i)

/-- The hosted release record created by `create_release_draft`
(`release.py:103-106`). -/
def create_release_draft (version : String) : GhRelease :=
  { draft := true, prerelease := pyContainsRc version }

/-- The tail of `resume`/`start` shared by the model: upload (after the caller
decided whether to delete first) and the image build.  `delete_assets` empties
the hosted asset list and `upload_assets` appends the downloaded artifact set. -/
def uploadAndBuild (env : Env) (version : String) (files : List String)
    (s : State) (tr : List Effect) : MRes :=
  let s1 : State := { s with releaseAssets := s.releaseAssets ++ files }
  let tr1 : List Effect := tr ++ [Effect.uploadAssets, Effect.buildImages version]
  match build_images env with
  | Except.error e => MRes.fail e s1 tr1
  | Except.ok _ => MRes.ok s1 tr1

/-- The body of `resume` (`release.py:158-186`, the contents of its `try`
block): missing local branch raises the workflow error; then the bump commit
step, PR lookup (creating one only when none exists), mergeability check
(warning only), CI gate, artifact download, release lookup (creating a draft
only when none exists; an existing non-draft release requires explicit
operator confirmation, else `ScriptError('Aborting release')`), asset delete
then upload, and the image build. -/
def resumeBody (env : Env) (version : String) (s : State) : MRes :=
  let br := branch_name version
  if br ∈ s.localBranches then
    match create_bump_commit env br s with
    | MRes.fail e s1 tr1 => MRes.fail e s1 tr1
    | MRes.blocked s1 tr1 => MRes.blocked s1 tr1
    | MRes.ok s1 tr1 =>
      let s2 : State :=
        if s1.prExists then s1
        else { s1 with prExists := true, prCreateCount := s1.prCreateCount + 1 }
      let tr2 : List Effect :=
        if s1.prExists then tr1 ++ [Effect.findPR version]
        else tr1 ++ [Effect.findPR version, Effect.createPR version]
      let tr3 : List Effect := tr2 ++ [Effect.checkMergeable, Effect.ciGate]
      match monitor_pr_status env.polls with
      | none => MRes.blocked s2 tr3
      | some (GateOutcome.err m) => MRes.fail (Exc.scriptError m) s2 tr3
      | some GateOutcome.ok =>
        match env.downloadResult with
        | Except.error e => MRes.fail e s2 (tr3 ++ [Effect.downloadAll version])
        | Except.ok files =>
          let tr4 : List Effect :=
            tr3 ++ [Effect.downloadAll version, Effect.findRelease version]
          match s2.release with
          | none =>
            let s3 : State :=
              { s2 with
                release := some (create_release_draft version),
                releaseCreateCount := s2.releaseCreateCount + 1 }
            uploadAndBuild env version files { s3 with releaseAssets := [] }
              (tr4 ++ [Effect.createRelease version, Effect.deleteAssets])
          | some r =>
            if r.draft then
              uploadAndBuild env version files { s2 with releaseAssets := [] }
                (tr4 ++ [Effect.deleteAssets])
            else if pyLower env.publicAnswer = "y" then
              uploadAndBuild env version files { s2 with releaseAssets := [] }
                (tr4 ++ [Effect.deleteAssets])
            else MRes.fail (Exc.scriptError "Aborting release") s2 tr4
  else MRes.fail (Exc.scriptError "No local branch exists for this release.") s []

/-- The body of `start` (`release.py:212-223`, the contents of its `try`
block): create the release branch (recording the release version in its config
region), run the bump commit step, unconditionally open a PR, check
mergeability, run the CI gate, download artifacts, unconditionally create a
draft release, upload assets (with no preceding delete), and build images. -/
def startBody (env : Env) (version : String) (s : State) : MRes :=
  let br := branch_name version
  let s0 : State := { s with
    localBranches := if br ∈ s.localBranches then s.localBranches else br :: s.localBranches,
    branchConfig := some version }
  match create_bump_commit env br s0 with
  | MRes.fail e s1 tr1 => MRes.fail e s1 tr1
  | MRes.blocked s1 tr1 => MRes.blocked s1 tr1
  | MRes.ok s1 tr1 =>
    let s2 : State := { s1 with prExists := true, prCreateCount := s1.prCreateCount + 1 }
    let tr2 : List Effect := tr1 ++ [Effect.createPR version, Effect.checkMergeable, Effect.ciGate]
    match monitor_pr_status env.polls with
    | none => MRes.blocked s2 tr2
    | some (GateOutcome.err m) => MRes.fail (Exc.scriptError m) s2 tr2
    | some GateOutcome.ok =>
      match env.downloadResult with
      | Except.error e => MRes.fail e s2 (tr2 ++ [Effect.downloadAll version])
      | Except.ok files =>
        let s3 : State :=
          { s2 with
            release := some (create_release_draft version),
            releaseCreateCount := s2.releaseCreateCount + 1 }
        uploadAndBuild env version files s3
          (tr2 ++ [Effect.downloadAll version, Effect.createRelease version])

/-- The body of `cancel` (`release.py:195-204`, the contents of its `try`
block): close any open release PR, remove any hosted release record, delete
the bump branch.  The artifact-hosting deletion is commented out in the source
and therefore never performed. -/
def cancelBody (env : Env) (version : String) (s : State) : MRes :=
  match env.closePrResult with
  | Except.error e => MRes.fail e s [Effect.closePR version]
  | Except.ok _ =>
    let s1 : State := { s with prExists := false }
    match env.removeReleaseResult with
    | Except.error e => MRes.fail e s1 [Effect.closePR version, Effect.removeRelease version]
    | Except.ok _ =>
      let s2 : State := { s1 with release := none }
      match env.removeBranchResult with
      | Except.error e =>
        MRes.fail e s2
          [Effect.closePR version, Effect.removeRelease version, Effect.removeBumpBranch version]
      | Except.ok _ =>
        MRes.ok { s2 with localBranches := s2.localBranches.erase (branch_name version) }
          [Effect.closePR version, Effect.removeRelease version, Effect.removeBumpBranch version]

/-- The body of `finalize` (`release.py:232-234`): it raises
`NotImplementedError()` unconditionally. -/
def finalizeBody (s : State) : MRes :=
  MRes.fail Exc.notImplementedError s []

/-- Process outcome of one action: a normal return value, an exception that
escaped the action's handler, or a run blocked in an interactive loop /
unbounded poll. -/
inductive Outcome where
  | exit (code : Nat)
  | escaped (e : Exc)
  | blocked
deriving DecidableEq, Repr

/-- The result of one action run. -/
structure ActionResult where
  outcome : Outcome
  state : State
  trace : List Effect
deriving DecidableEq, Repr

/-- The `try ... except ScriptError as e: print(e); return 1` wrapper shared
by all four actions: a normal body return yields exit code 0, a raised
`ScriptError` is caught and yields exit code 1, and any other exception
escapes the handler. -/
def handleAction : MRes → ActionResult
  | MRes.ok s tr => { outcome := Outcome.exit 0, state := s, trace := tr }
  | MRes.fail (Exc.scriptError _) s tr => { outcome := Outcome.exit 1, state := s, trace := tr }
  | MRes.fail e s tr => { outcome := Outcome.escaped e, state := s, trace := tr }
  | MRes.blocked s tr => { outcome := Outcome.blocked, state := s, trace := tr }

/-- `resume` (`release.py:158-192`). -/
def resume (env : Env) (version : String) (s : State) : ActionResult :=
  handleAction (resumeBody env version s)

/-- `start` (`release.py:212-229`). -/
def start (env : Env) (version : String) (s : State) : ActionResult :=
  handleAction (startBody env version s)

/-- `cancel` (`release.py:195-209`). -/
def cancel (env : Env) (version : String) (s : State) : ActionResult :=
  handleAction (cancelBody env version s)

/-- `finalize` (`release.py:232-239`). -/
def finalize (s : State) : ActionResult :=
  handleAction (finalizeBody s)
def MRes.traceOf : MRes → List Effect
  | MRes.ok _ tr => tr
  | MRes.fail _ _ tr => tr
  | MRes.blocked _ tr => tr

/-- How a body run ended: completed, raised an exception, or got stuck in an
interactive loop / unbounded poll. -/
inductive Verdict where
  | completed
  | raised (e : Exc)
  | stuck
deriving DecidableEq, Repr

/-- The verdict of a body result (forgetting state and trace). -/
def MRes.verdict : MRes → Verdict
  | MRes.ok _ _ => Verdict.completed
  | MRes.fail e _ _ => Verdict.raised e
  | MRes.blocked _ _ => Verdict.stuck

/-- The process outcome the action wrapper assigns to each verdict. -/
def verdictOutcome : Verdict → Outcome
  | Verdict.completed => Outcome.exit 0
  | Verdict.raised e => if e.isScriptError then Outcome.exit 1 else Outcome.escaped e
  | Verdict.stuck => Outcome.blocked

/-- A sample world state: the release branch for `1.21.1` exists with its
config region set, nothing else has been created yet. -/
def sampleState : State :=
  { localBranches := ["bump-1.21.1"], branchConfig := some "1.21.1",
    workingVersion := none, committedVersion := none, commitCount := 0,
    prExists := false, prCreateCount := 0, release := none,
    releaseCreateCount := 0, releaseAssets := [], bintrayRepos := [] }

/-- Like `sampleState` but with no local release branch. -/
def noBranchState : State :=
  { sampleState with localBranches := [] }

/-- A sample environment in which every collaborator call succeeds: the
operator approves the diff, CI reports one successful check, the download
returns two artifacts, and both image builds stream no error events. -/
def sampleEnv : Env :=
  { diffAnswers := ["y"], publicAnswer := "n", mergeable := true,
    polls := [{ state := "success", statuses := [CheckState.success], total_count := 1 }],
    createRepoResult := Except.ok (), downloadResult := Except.ok ["bin1", "bin2"],
    buildChunks := [{ error := none, stream := some "Step 1" }], testBuildChunks := [],
    closePrResult := Except.ok (), removeReleaseResult := Except.ok (),
    removeBranchResult := Except.ok () }

/-- An environment in which the artifact-hosting provisioning call and the
close-PR call both raise a non-workflow exception (a connection error). -/
def excEnv : Env :=
  { sampleEnv with
    createRepoResult := Except.error (Exc.otherError "ConnectionError"),
    closePrResult := Except.error (Exc.otherError "ConnectionError") }

/-- A state with an already-public (non-draft) hosted release carrying one
asset. -/
def publicRelState : State :=
  { sampleState with
    release := some { draft := false, prerelease := false },
    releaseAssets := ["old.zip"] }

/-! ## Helper lemmas -/

/-- Python substring containment `'-rc' in version` holds exactly when some
suffix of the version string starts with `-rc`. -/
theorem pyContainsRc_iff (v : String) :
    pyContainsRc v = true ↔ ∃ t, t <:+ v.data ∧ "-rc".data <+: t := by
  unfold pyContainsRc
  rw [List.any_eq_true]
  constructor
  · rintro ⟨i, -, hpre⟩
    exact ⟨v.data.drop i, List.drop_suffix i v.data, List.isPrefixOf_iff_prefix.mp hpre⟩
  · rintro ⟨t, ⟨p, hp⟩, hpre⟩
    refine ⟨p.length, ?_, ?_⟩
    · rw [List.mem_range]
      have : p.length ≤ v.data.length := by rw [← hp]; simp
      omega
    · rw [List.isPrefixOf_iff_prefix, ← hp, List.drop_left]
      exact hpre

/-- The action wrapper returns the body's final state unchanged. -/
theorem handleAction_state (r : MRes) : (handleAction r).state = r.stateOf := by
  rcases r with ⟨s, tr⟩ | ⟨e, s, tr⟩ | ⟨s, tr⟩
  · rfl
  · cases e <;> rfl
  · rfl

/-- The action wrapper's exit-code policy, characterised on the body result:
exit code 0 exactly for a normal return, exit code 1 exactly for a raised
`ScriptError`, and an escaped exception is never a `ScriptError`. -/
theorem handleAction_outcome (r : MRes) :
    ((handleAction r).outcome = Outcome.exit 0 ↔ ∃ s tr, r = MRes.ok s tr) ∧
    ((handleAction r).outcome = Outcome.exit 1 ↔
      ∃ m s tr, r = MRes.fail (Exc.scriptError m) s tr) ∧
    (∀ e, (handleAction r).outcome = Outcome.escaped e → e.isScriptError = false) := by
  rcases r with ⟨s, tr⟩ | ⟨e, s, tr⟩ | ⟨s, tr⟩
  · simp [handleAction]
  · cases e <;> simp [handleAction, Exc.isScriptError]
  · simp [handleAction]

/-- A raised non-`ScriptError` exception passes through the action wrapper. -/
theorem handleAction_escapes (r : MRes) (e : Exc) (hexc : r.excOf = some e)
    (hns : e.isScriptError = false) : (handleAction r).outcome = Outcome.escaped e := by
  rcases r with ⟨s, tr⟩ | ⟨e', s, tr⟩ | ⟨s, tr⟩
  · simp [MRes.excOf] at hexc
  · simp only [MRes.excOf, Option.some.injEq] at hexc
    cases hexc
    cases e <;> simp_all [handleAction, Exc.isScriptError]
  · simp [MRes.excOf] at hexc

theorem handleAction_trace (r : MRes) : (handleAction r).trace = r.traceOf := by
  rcases r with ⟨s, tr⟩ | ⟨e, s, tr⟩ | ⟨s, tr⟩
  · rfl
  · cases e <;> rfl
  · rfl

/-- The wrapper's outcome is a function of the body's verdict alone. -/
theorem handleAction_outcome_eq_verdict (r : MRes) :
    (handleAction r).outcome = verdictOutcome r.verdict := by
  rcases r with ⟨s, tr⟩ | ⟨e, s, tr⟩ | ⟨s, tr⟩
  · rfl
  · cases e <;> rfl
  · rfl

/-- Inserting a branch name into the provisioned-repository list always leaves
it present. -/
theorem mem_insert_branch (a : String) (l : List String) :
    a ∈ (if a ∈ l then l else a :: l) := by
  split
  · assumption
  · exact List.mem_cons_self a l

/-- Collapsing a conditional that writes back the compared value. -/
theorem ite_eq_fallback {α : Type} (x y : α) [Decidable (x = y)] :
    (if x = y then y else x) = x := by
  split
  · next h => exact h.symm
  · rfl

/-- A boolean that is forced to `true` in both branches. -/
theorem ite_self_else_true (b : Bool) :
    (if b = true then b else true) = true := by
  cases b <;> rfl

theorem ite_state_localBranches (c : Prop) [Decidable c] (a b : State) :
    (if c then a else b).localBranches = if c then a.localBranches else b.localBranches :=
  apply_ite State.localBranches c a b

theorem ite_state_branchConfig (c : Prop) [Decidable c] (a b : State) :
    (if c then a else b).branchConfig = if c then a.branchConfig else b.branchConfig :=
  apply_ite State.branchConfig c a b

theorem ite_state_workingVersion (c : Prop) [Decidable c] (a b : State) :
    (if c then a else b).workingVersion = if c then a.workingVersion else b.workingVersion :=
  apply_ite State.workingVersion c a b

theorem ite_state_committedVersion (c : Prop) [Decidable c] (a b : State) :
    (if c then a else b).committedVersion = if c then a.committedVersion else b.committedVersion :=
  apply_ite State.committedVersion c a b

theorem ite_state_commitCount (c : Prop) [Decidable c] (a b : State) :
    (if c then a else b).commitCount = if c then a.commitCount else b.commitCount :=
  apply_ite State.commitCount c a b

theorem ite_state_prExists (c : Prop) [Decidable c] (a b : State) :
    (if c then a else b).prExists = if c then a.prExists else b.prExists :=
  apply_ite State.prExists c a b

theorem ite_state_prCreateCount (c : Prop) [Decidable c] (a b : State) :
    (if c then a else b).prCreateCount = if c then a.prCreateCount else b.prCreateCount :=
  apply_ite State.prCreateCount c a b

theorem ite_state_release (c : Prop) [Decidable c] (a b : State) :
    (if c then a else b).release = if c then a.release else b.release :=
  apply_ite State.release c a b

theorem ite_state_releaseCreateCount (c : Prop) [Decidable c] (a b : State) :
    (if c then a else b).releaseCreateCount = if c then a.releaseCreateCount else b.releaseCreateCount :=
  apply_ite State.releaseCreateCount c a b

theorem ite_state_releaseAssets (c : Prop) [Decidable c] (a b : State) :
    (if c then a else b).releaseAssets = if c then a.releaseAssets else b.releaseAssets :=
  apply_ite State.releaseAssets c a b

theorem ite_state_bintrayRepos (c : Prop) [Decidable c] (a b : State) :
    (if c then a else b).bintrayRepos = if c then a.bintrayRepos else b.bintrayRepos :=
  apply_ite State.bintrayRepos c a b

theorem create_bump_commit_ok_cases (env : Env) (br : String) (s : State) (rel : String)
    (hcfg : s.branchConfig = some rel)
    (hconf : confirmLoop env.diffAnswers = true)
    (hrepo : env.createRepoResult = Except.ok ()) :
    (s.committedVersion = some rel ∧
      create_bump_commit env br s =
        MRes.ok
          { s with
            workingVersion := some rel,
            bintrayRepos := if br ∈ s.bintrayRepos then s.bintrayRepos else br :: s.bintrayRepos }
          [Effect.updateVersionFiles rel, Effect.pushBranch br, Effect.createBintrayRepo br]) ∨
    (s.committedVersion ≠ some rel ∧
      create_bump_commit env br s =
        MRes.ok
          { s with
            workingVersion := some rel,
            committedVersion := some rel,
            commitCount := s.commitCount + 1,
            bintrayRepos := if br ∈ s.bintrayRepos then s.bintrayRepos else br :: s.bintrayRepos }
          [Effect.updateVersionFiles rel, Effect.bumpCommit rel, Effect.pushBranch br,
           Effect.createBintrayRepo br]) := by
  obtain ⟨lb, bc, wv, cv, cc, pe, pc, rl, rc, ra, brs⟩ := s
  simp only at hcfg
  subst hcfg
  by_cases hdiff : cv = some rel
  · left
    subst hdiff
    exact ⟨rfl, by simp [create_bump_commit, hconf, hrepo]⟩
  · right
    have hdiff2 : ¬(some rel = cv) := fun h => hdiff h.symm
    exact ⟨hdiff, by simp [create_bump_commit, hconf, hrepo, hdiff2]⟩

theorem create_bump_commit_no_asset_ops (env : Env) (br : String) (s : State) :
    Effect.deleteAssets ∉ (create_bump_commit env br s).traceOf ∧
    Effect.uploadAssets ∉ (create_bump_commit env br s).traceOf := by
  obtain ⟨lb, bc, wv, cv, cc, pe, pc, rl, rc, ra, brs⟩ := s
  rcases bc with _ | rel
  · simp [create_bump_commit, MRes.traceOf]
  by_cases hconf : confirmLoop env.diffAnswers
  case neg => simp [create_bump_commit, hconf, MRes.traceOf]
  rcases hrepo : env.createRepoResult with ⟨e⟩ | ⟨⟩ <;>
    by_cases hdiff : (some rel : Option String) = cv <;>
      simp [create_bump_commit, hconf, hrepo, hdiff, MRes.traceOf]

theorem decomp_here (l : List Effect) :
    ∃ l1 l2, Effect.deleteAssets :: Effect.uploadAssets :: l =
      l1 ++ Effect.deleteAssets :: Effect.uploadAssets :: l2 :=
  ⟨[], l, rfl⟩

theorem decomp_cons {x : Effect} {l : List Effect}
    (h : ∃ l1 l2, l = l1 ++ Effect.deleteAssets :: Effect.uploadAssets :: l2) :
    ∃ l1 l2, x :: l = l1 ++ Effect.deleteAssets :: Effect.uploadAssets :: l2 := by
  obtain ⟨l1, l2, rfl⟩ := h
  exact ⟨x :: l1, l2, rfl⟩

theorem decomp_append {tr l : List Effect}
    (h : ∃ l1 l2, l = l1 ++ Effect.deleteAssets :: Effect.uploadAssets :: l2) :
    ∃ l1 l2, tr ++ l = l1 ++ Effect.deleteAssets :: Effect.uploadAssets :: l2 := by
  obtain ⟨l1, l2, rfl⟩ := h
  exact ⟨tr ++ l1, l2, by simp⟩

theorem resumeBody_idem (env : Env) (v : String) (s : State) :
    (resumeBody env v ((resumeBody env v s).stateOf)).stateOf =
        (resumeBody env v s).stateOf ∧
    (resumeBody env v ((resumeBody env v s).stateOf)).verdict =
        (resumeBody env v s).verdict := by
  obtain ⟨lb, bc, wv, cv, cc, pe, pc, rl, rc, ra, brs⟩ := s
  by_cases hbr : branch_name v ∈ lb
  case neg =>
    simp [resumeBody, hbr, MRes.stateOf, MRes.verdict]
  case pos =>
  rcases bc with _ | rel
  · simp [resumeBody, create_bump_commit, hbr, MRes.stateOf, MRes.verdict]
  by_cases hconf : confirmLoop env.diffAnswers
  case neg =>
    simp [resumeBody, create_bump_commit, hbr, hconf, MRes.stateOf, MRes.verdict]
  case pos =>
  rcases hrepo : env.createRepoResult with ⟨e⟩ | ⟨⟩
  · by_cases hdiff : cv = some rel
    · simp [resumeBody, create_bump_commit, hbr, hconf, hrepo, hdiff,
            MRes.stateOf, MRes.verdict]
    · have hdiff2 : ¬(some rel = cv) := fun h => hdiff h.symm
      simp [resumeBody, create_bump_commit, hbr, hconf, hrepo, hdiff2,
            MRes.stateOf, MRes.verdict]
  · rcases hmon : monitor_pr_status env.polls with _ | go
    · simp [resumeBody, create_bump_commit, uploadAndBuild, create_release_draft,
            hbr, hconf, hrepo, hmon, MRes.stateOf, MRes.verdict,
            ite_state_localBranches, ite_state_branchConfig, ite_state_workingVersion, ite_state_committedVersion, ite_state_commitCount, ite_state_prExists, ite_state_prCreateCount, ite_state_release, ite_state_releaseCreateCount, ite_state_releaseAssets, ite_state_bintrayRepos, ite_self, ite_eq_fallback, ite_self_else_true, mem_insert_branch] <;> cases pe <;> simp_all
    · cases go
      case ok =>
        rcases hdl : env.downloadResult with ⟨e2⟩ | ⟨files⟩
        · simp [resumeBody, create_bump_commit, uploadAndBuild, create_release_draft,
                hbr, hconf, hrepo, hmon, hdl, MRes.stateOf, MRes.verdict,
                ite_state_localBranches, ite_state_branchConfig, ite_state_workingVersion, ite_state_committedVersion, ite_state_commitCount, ite_state_prExists, ite_state_prCreateCount, ite_state_release, ite_state_releaseCreateCount, ite_state_releaseAssets, ite_state_bintrayRepos, ite_self, ite_eq_fallback, ite_self_else_true, mem_insert_branch] <;> cases pe <;> simp_all
        · rcases rl with _ | r
          · rcases hbuild : build_images env with ⟨e3⟩ | ⟨⟩ <;>
              simp [resumeBody, create_bump_commit, uploadAndBuild, create_release_draft,
                    hbr, hconf, hrepo, hmon, hdl, hbuild, MRes.stateOf, MRes.verdict,
                    ite_state_localBranches, ite_state_branchConfig, ite_state_workingVersion, ite_state_committedVersion, ite_state_commitCount, ite_state_prExists, ite_state_prCreateCount, ite_state_release, ite_state_releaseCreateCount, ite_state_releaseAssets, ite_state_bintrayRepos, ite_self, ite_eq_fallback, ite_self_else_true, mem_insert_branch] <;> cases pe <;> simp_all
          · by_cases hdraft : r.draft = true
            · rcases hbuild : build_images env with ⟨e3⟩ | ⟨⟩ <;>
                simp [resumeBody, create_bump_commit, uploadAndBuild, create_release_draft,
                      hbr, hconf, hrepo, hmon, hdl, hdraft, hbuild, MRes.stateOf, MRes.verdict,
                      ite_state_localBranches, ite_state_branchConfig, ite_state_workingVersion, ite_state_committedVersion, ite_state_commitCount, ite_state_prExists, ite_state_prCreateCount, ite_state_release, ite_state_releaseCreateCount, ite_state_releaseAssets, ite_state_bintrayRepos, ite_self, ite_eq_fallback, ite_self_else_true, mem_insert_branch] <;> cases pe <;> simp_all
            · by_cases hans : pyLower env.publicAnswer = "y"
              · rcases hbuild : build_images env with ⟨e3⟩ | ⟨⟩ <;>
                  simp [resumeBody, create_bump_commit, uploadAndBuild, create_release_draft,
                        hbr, hconf, hrepo, hmon, hdl, hdraft, hans, hbuild, MRes.stateOf, MRes.verdict,
                        ite_state_localBranches, ite_state_branchConfig, ite_state_workingVersion, ite_state_committedVersion, ite_state_commitCount, ite_state_prExists, ite_state_prCreateCount, ite_state_release, ite_state_releaseCreateCount, ite_state_releaseAssets, ite_state_bintrayRepos, ite_self, ite_eq_fallback, ite_self_else_true, mem_insert_branch] <;> cases pe <;> simp_all
              · simp [resumeBody, create_bump_commit, uploadAndBuild, create_release_draft,
                      hbr, hconf, hrepo, hmon, hdl, hdraft, hans, MRes.stateOf, MRes.verdict,
                      ite_state_localBranches, ite_state_branchConfig, ite_state_workingVersion, ite_state_committedVersion, ite_state_commitCount, ite_state_prExists, ite_state_prCreateCount, ite_state_release, ite_state_releaseCreateCount, ite_state_releaseAssets, ite_state_bintrayRepos, ite_self, ite_eq_fallback, ite_self_else_true, mem_insert_branch] <;> cases pe <;> simp_all
      case err m =>
        simp [resumeBody, create_bump_commit, uploadAndBuild, create_release_draft,
              hbr, hconf, hrepo, hmon, MRes.stateOf, MRes.verdict,
              ite_state_localBranches, ite_state_branchConfig, ite_state_workingVersion, ite_state_committedVersion, ite_state_commitCount, ite_state_prExists, ite_state_prCreateCount, ite_state_release, ite_state_releaseCreateCount, ite_state_releaseAssets, ite_state_bintrayRepos, ite_self, ite_eq_fallback, ite_self_else_true, mem_insert_branch] <;> cases pe <;> simp_all

theorem resumeBody_upload_shape (env : Env) (v : String) (s : State) :
    Effect.uploadAssets ∉ (resumeBody env v s).traceOf ∨
    ∃ l1 l2, (resumeBody env v s).traceOf =
      l1 ++ Effect.deleteAssets :: Effect.uploadAssets :: l2 := by
  obtain ⟨-, hupl⟩ := create_bump_commit_no_asset_ops env (branch_name v) s
  by_cases hbr : branch_name v ∈ s.localBranches
  case neg => exact Or.inl (by simp [resumeBody, hbr, MRes.traceOf])
  rcases hcbc : create_bump_commit env (branch_name v) s with ⟨s1, tr1⟩ | ⟨e, s1, tr1⟩ | ⟨s1, tr1⟩
  rotate_left
  · rw [hcbc] at hupl
    simp only [MRes.traceOf] at hupl
    exact Or.inl (by simp [resumeBody, hbr, hcbc, MRes.traceOf, hupl])
  · rw [hcbc] at hupl
    simp only [MRes.traceOf] at hupl
    exact Or.inl (by simp [resumeBody, hbr, hcbc, MRes.traceOf, hupl])
  rw [hcbc] at hupl
  simp only [MRes.traceOf] at hupl
  simp only [resumeBody, if_pos hbr, hcbc, ite_state_localBranches, ite_state_branchConfig, ite_state_workingVersion, ite_state_committedVersion, ite_state_commitCount, ite_state_prExists, ite_state_prCreateCount, ite_state_release, ite_state_releaseCreateCount, ite_state_releaseAssets, ite_state_bintrayRepos, ite_self]
  rcases hmon : monitor_pr_status env.polls with _ | go
  · refine Or.inl ?_
    cases hpe : s1.prExists <;> simp [MRes.traceOf, hpe, hupl]
  cases go
  rotate_left
  · refine Or.inl ?_
    cases hpe : s1.prExists <;> simp [MRes.traceOf, hpe, hupl]
  rcases hdl : env.downloadResult with ⟨e2⟩ | ⟨files⟩
  · refine Or.inl ?_
    cases hpe : s1.prExists <;> simp [MRes.traceOf, hpe, hupl]
  rcases hrel : s1.release with _ | r
  · refine Or.inr ?_
    rcases hbuild : build_images env with ⟨e3⟩ | ⟨⟩ <;>
    · simp only [uploadAndBuild, hbuild, MRes.traceOf, List.append_assoc, List.cons_append,
                 List.nil_append]
      repeat first
        | exact decomp_here _
        | apply decomp_cons
        | apply decomp_append
  · by_cases hdraft : r.draft = true
    · refine Or.inr ?_
      rcases hbuild : build_images env with ⟨e3⟩ | ⟨⟩ <;>
      · simp only [uploadAndBuild, hbuild, MRes.traceOf, List.append_assoc, List.cons_append,
                   List.nil_append, hdraft]
        repeat first
          | exact decomp_here _
          | apply decomp_cons
          | apply decomp_append
    · by_cases hans : pyLower env.publicAnswer = "y"
      · refine Or.inr ?_
        rcases hbuild : build_images env with ⟨e3⟩ | ⟨⟩ <;>
        · simp only [uploadAndBuild, hbuild, MRes.traceOf, List.append_assoc, List.cons_append,
                     List.nil_append, hdraft, hans]
          repeat first
            | exact decomp_here _
            | apply decomp_cons
            | apply decomp_append
      · refine Or.inl ?_
        cases hpe : s1.prExists <;> simp [MRes.traceOf, hpe, hupl, hdraft, hans]

/-! ## Claims -/

/-- C2: given the spec's aggregate definition, a combined status containing at
least one failed check (even with other checks still pending) makes
`monitor_pr_status` raise the workflow error `CI failure detected` on that
poll, regardless of any later polls - it neither sleeps nor polls again. -/
theorem monitor_raises_on_any_failed_check (st : CombinedStatus)
    (rest : List CombinedStatus) (hwf : wellFormedStatus st)
    (hf : CheckState.failure ∈ st.statuses) :
    monitor_pr_status (st :: rest) = some (GateOutcome.err "CI failure detected") := by
  obtain ⟨-, hstate | ⟨hnil, -⟩⟩ := hwf
  · have hs : st.state = "failure" := by rw [hstate, aggregateState, if_pos hf]
    have hstep : monitorStep st = GateStep.raisesError "CI failure detected" := by
      unfold monitorStep
      rw [hs, if_neg (by decide), if_neg (by decide)]
    simp [monitor_pr_status, hstep]
  · rw [hnil] at hf
    cases hf

/-- Witness for C2: a concrete combined status with one failed and one pending
check makes the gate raise immediately. -/
theorem monitor_raises_on_any_failed_check_witness :
    monitor_pr_status
        [{ state := "failure", statuses := [CheckState.failure, CheckState.pending],
           total_count := 2 }] =
      some (GateOutcome.err "CI failure detected") :=
  monitor_raises_on_any_failed_check _ []
    (by unfold wellFormedStatus; exact ⟨by decide, Or.inl (by decide)⟩) (by decide)

/-- C3: the CI gate returns success on the first poll (with no sleep and no
further polling) when the commit has zero total status checks, and otherwise
returns success only when every check's state is `success`. -/
theorem monitor_success_conditions (st : CombinedStatus) (rest : List CombinedStatus)
    (hwf : wellFormedStatus st) :
    (st.total_count = 0 → monitor_pr_status (st :: rest) = some GateOutcome.ok) ∧
    (monitor_pr_status [st] = some GateOutcome.ok ↔
      ∀ c ∈ st.statuses, c = CheckState.success) := by
  obtain ⟨hcount, hstate⟩ := hwf
  constructor
  · intro hz
    have hnil : st.statuses = [] := by
      rw [hz] at hcount
      exact List.length_eq_zero.mp hcount.symm
    rcases hstate with hstate | ⟨-, hstate⟩
    · have hs : st.state = "success" := by
        rw [hstate, aggregateState, hnil]
        simp
      have hstep : monitorStep st = GateStep.returnsTrue := by
        unfold monitorStep
        rw [hs, if_neg (by decide), if_pos rfl]
      simp [monitor_pr_status, hstep]
    · have hstep : monitorStep st = GateStep.returnsTrue := by
        unfold monitorStep
        rw [hstate, if_pos rfl, if_pos hz]
      simp [monitor_pr_status, hstep]
  · by_cases hfail : CheckState.failure ∈ st.statuses
    · have hne : st.statuses ≠ [] := by
        intro h
        rw [h] at hfail
        cases hfail
      rcases hstate with hstate | ⟨hnil, -⟩
      · have hs : st.state = "failure" := by rw [hstate, aggregateState, if_pos hfail]
        have hstep : monitorStep st = GateStep.raisesError "CI failure detected" := by
          unfold monitorStep
          rw [hs, if_neg (by decide), if_neg (by decide)]
        have hm : monitor_pr_status [st] =
            some (GateOutcome.err "CI failure detected") := by
          simp [monitor_pr_status, hstep]
        rw [hm]
        constructor
        · intro h
          simp at h
        · intro h
          exact absurd (h _ hfail) (by decide)
      · exact absurd hnil hne
    · by_cases hpend : CheckState.pending ∈ st.statuses
      · have hne : st.statuses ≠ [] := by
          intro h
          rw [h] at hpend
          cases hpend
        rcases hstate with hstate | ⟨hnil, -⟩
        · have hs : st.state = "pending" := by
            rw [hstate, aggregateState, if_neg hfail, if_pos hpend]
          have hcz : st.total_count ≠ 0 := by
            rw [hcount]
            intro h
            exact hne (List.length_eq_zero.mp h)
          have hstep : monitorStep st = GateStep.sleeps := by
            unfold monitorStep
            rw [hs, if_pos rfl, if_neg hcz]
          have hm : monitor_pr_status [st] = none := by
            simp [monitor_pr_status, hstep]
          rw [hm]
          constructor
          · intro h
            simp at h
          · intro h
            exact absurd (h _ hpend) (by decide)
        · exact absurd hnil hne
      · have hall : ∀ c ∈ st.statuses, c = CheckState.success := by
          intro c hc
          cases c
          · exact absurd hc hpend
          · rfl
          · exact absurd hc hfail
        rcases hstate with hstate | ⟨hnil, hpending⟩
        · have hs : st.state = "success" := by
            rw [hstate, aggregateState, if_neg hfail, if_neg hpend]
          have hstep : monitorStep st = GateStep.returnsTrue := by
            unfold monitorStep
            rw [hs, if_neg (by decide), if_pos rfl]
          have hm : monitor_pr_status [st] = some GateOutcome.ok := by
            simp [monitor_pr_status, hstep]
          exact ⟨fun _ => hall, fun _ => hm⟩
        · have hz : st.total_count = 0 := by rw [hcount, hnil]; rfl
          have hstep : monitorStep st = GateStep.returnsTrue := by
            unfold monitorStep
            rw [hpending, if_pos rfl, if_pos hz]
          have hm : monitor_pr_status [st] = some GateOutcome.ok := by
            simp [monitor_pr_status, hstep]
          exact ⟨fun _ => hall, fun _ => hm⟩

/-- Witness for C3: a commit with zero status checks is an immediate success. -/
theorem monitor_success_conditions_witness :
    monitor_pr_status
        [({ state := "pending", statuses := [], total_count := 0 } : CombinedStatus)] =
      some GateOutcome.ok :=
  (monitor_success_conditions _ []
    (by unfold wellFormedStatus; exact ⟨rfl, Or.inr ⟨rfl, rfl⟩⟩)).1 rfl

/-- C9: the release record created by `create_release_draft` has its
prerelease flag set exactly when the version carries a `-rc` suffix, i.e. the
flag is true iff some suffix of the version string starts with `-rc` (the
code's `'-rc' in version` containment test is equivalent to that). -/
theorem draft_prerelease_iff_rc_suffix (version : String) :
    (create_release_draft version).prerelease = true ↔
      ∃ t, t <:+ version.data ∧ "-rc".data <+: t := by
  unfold create_release_draft
  exact pyContainsRc_iff version

/-- C5: for a version with no existing local release branch, `resume` raises
the workflow error `No local branch exists for this release.` immediately:
it returns the failing exit code 1, performs no collaborator operation at all
(empty effect trace - no bump commit, no PR lookup, no CI gate, no download),
and leaves the state unchanged. -/
theorem resume_no_branch_fails_immediately (env : Env) (v : String) (s : State)
    (h : branch_name v ∉ s.localBranches) :
    resumeBody env v s =
      MRes.fail (Exc.scriptError "No local branch exists for this release.") s [] ∧
    resume env v s = { outcome := Outcome.exit 1, state := s, trace := [] } := by
  have hbody : resumeBody env v s =
      MRes.fail (Exc.scriptError "No local branch exists for this release.") s [] := by
    unfold resumeBody
    rw [if_neg h]
  exact ⟨hbody, by rw [resume, hbody]; rfl⟩

/-- Witness for C5: `resume "1.21.1"` against a state with no local branches
exits with code 1, an empty trace, and an unchanged state. -/
theorem resume_no_branch_fails_immediately_witness :
    resume sampleEnv "1.21.1" noBranchState =
      { outcome := Outcome.exit 1, state := noBranchState, trace := [] } :=
  (resume_no_branch_fails_immediately sampleEnv "1.21.1" noBranchState (by decide)).2

/-- C8: when its three collaborator calls succeed, `cancel` closes the release
PR, removes the hosted release record, deletes the bump branch - exactly those
three operations, in that order - reports success (exit code 0), and never
performs an artifact-hosting repository deletion (the state's bintray
repositories are untouched). -/
theorem cancel_closes_removes_deletes (env : Env) (v : String) (s : State)
    (h1 : env.closePrResult = Except.ok ())
    (h2 : env.removeReleaseResult = Except.ok ())
    (h3 : env.removeBranchResult = Except.ok ()) :
    cancel env v s =
      { outcome := Outcome.exit 0,
        state := { s with
                   prExists := false,
                   release := none,
                   localBranches := s.localBranches.erase (branch_name v) },
        trace := [Effect.closePR v, Effect.removeRelease v, Effect.removeBumpBranch v] } ∧
    (∀ br, Effect.bintrayDeleteRepo br ∉ (cancel env v s).trace) ∧
    (cancel env v s).state.bintrayRepos = s.bintrayRepos := by
  have hbody : cancel env v s =
      { outcome := Outcome.exit 0,
        state := { s with
                   prExists := false,
                   release := none,
                   localBranches := s.localBranches.erase (branch_name v) },
        trace := [Effect.closePR v, Effect.removeRelease v, Effect.removeBumpBranch v] } := by
    unfold cancel cancelBody
    rw [h1, h2, h3]
    rfl
  refine ⟨hbody, ?_, ?_⟩
  · intro br
    rw [hbody]
    simp
  · rw [hbody]

/-- Witness for C8: cancelling `1.21.1` in the sample world closes the PR,
removes the release, and deletes the branch, reporting success. -/
theorem cancel_closes_removes_deletes_witness :
    cancel sampleEnv "1.21.1" sampleState =
      { outcome := Outcome.exit 0,
        state := { sampleState with
                   prExists := false,
                   release := none,
                   localBranches := sampleState.localBranches.erase (branch_name "1.21.1") },
        trace := [Effect.closePR "1.21.1", Effect.removeRelease "1.21.1",
                  Effect.removeBumpBranch "1.21.1"] } :=
  (cancel_closes_removes_deletes sampleEnv "1.21.1" sampleState rfl rfl rfl).1

/-- C1 [amended]: `start`, `resume` and `cancel` return outcome 0 exactly when
their body completes every step, and outcome 1 exactly when a step raises the
workflow error (`ScriptError`); `finalize`, however, does not report a
"not supported" failing outcome: the `NotImplementedError` it raises is not a
`ScriptError`, so it escapes its handler as an unhandled exception instead of
becoming outcome 1. -/
theorem actions_exit_code_policy (env : Env) (v : String) (s : State) :
    ((resume env v s).outcome = Outcome.exit 0 ↔
      ∃ s' tr, resumeBody env v s = MRes.ok s' tr) ∧
    ((resume env v s).outcome = Outcome.exit 1 ↔
      ∃ m s' tr, resumeBody env v s = MRes.fail (Exc.scriptError m) s' tr) ∧
    ((cancel env v s).outcome = Outcome.exit 0 ↔
      ∃ s' tr, cancelBody env v s = MRes.ok s' tr) ∧
    ((cancel env v s).outcome = Outcome.exit 1 ↔
      ∃ m s' tr, cancelBody env v s = MRes.fail (Exc.scriptError m) s' tr) ∧
    ((start env v s).outcome = Outcome.exit 0 ↔
      ∃ s' tr, startBody env v s = MRes.ok s' tr) ∧
    ((start env v s).outcome = Outcome.exit 1 ↔
      ∃ m s' tr, startBody env v s = MRes.fail (Exc.scriptError m) s' tr) ∧
    (finalize s).outcome = Outcome.escaped Exc.notImplementedError ∧
    (finalize s).outcome ≠ Outcome.exit 1 ∧
    (finalize s).outcome ≠ Outcome.exit 0 := by
  refine ⟨(handleAction_outcome _).1, (handleAction_outcome _).2.1,
          (handleAction_outcome _).1, (handleAction_outcome _).2.1,
          (handleAction_outcome _).1, (handleAction_outcome _).2.1,
          rfl, ?_, ?_⟩
  · intro h
    simp [finalize, finalizeBody, handleAction] at h
  · intro h
    simp [finalize, finalizeBody, handleAction] at h

/-- Counterexample to C1 as stated: at a concrete input, `finalize` does not
produce the failing outcome 1 (nor 0); its `NotImplementedError` escapes the
action as an unhandled exception. -/
theorem finalize_escapes_counterexample :
    (finalize sampleState).outcome = Outcome.escaped Exc.notImplementedError ∧
    (finalize sampleState).outcome ≠ Outcome.exit 1 ∧
    (finalize sampleState).outcome ≠ Outcome.exit 0 := by
  decide

/-- C10: the action handlers catch only the workflow error `ScriptError`; any
other exception a step raises (such as the `NotImplementedError` raised inside
`finalize`, or a connection error from a collaborator) is not converted to a
failing outcome but propagates out of the action. -/
theorem non_script_errors_escape_handler (env : Env) (v : String) (s : State)
    (e : Exc) (hns : e.isScriptError = false)
    (hres : (resumeBody env v s).excOf = some e)
    (hcan : (cancelBody env v s).excOf = some e)
    (hsta : (startBody env v s).excOf = some e) :
    (resume env v s).outcome = Outcome.escaped e ∧
    (cancel env v s).outcome = Outcome.escaped e ∧
    (start env v s).outcome = Outcome.escaped e ∧
    (finalizeBody s).excOf = some Exc.notImplementedError ∧
    (finalize s).outcome = Outcome.escaped Exc.notImplementedError :=
  ⟨handleAction_escapes _ e hres hns, handleAction_escapes _ e hcan hns,
   handleAction_escapes _ e hsta hns, rfl, rfl⟩

/-- Witness for C10: a concrete connection error raised by a collaborator
escapes `resume`, `cancel` and `start`, and `finalize`'s
`NotImplementedError` escapes it. -/
theorem non_script_errors_escape_handler_witness :
    (resume excEnv "1.21.1" sampleState).outcome =
        Outcome.escaped (Exc.otherError "ConnectionError") ∧
    (cancel excEnv "1.21.1" sampleState).outcome =
        Outcome.escaped (Exc.otherError "ConnectionError") ∧
    (start excEnv "1.21.1" sampleState).outcome =
        Outcome.escaped (Exc.otherError "ConnectionError") ∧
    (finalizeBody sampleState).excOf = some Exc.notImplementedError ∧
    (finalize sampleState).outcome = Outcome.escaped Exc.notImplementedError :=
  non_script_errors_escape_handler excEnv "1.21.1" sampleState
    (Exc.otherError "ConnectionError") (by decide) (by decide) (by decide) (by decide)

theorem resume_public_release_requires_confirmation (env : Env) (v : String) (s : State)
    (r : GhRelease) (files : List String)
    (hbr : branch_name v ∈ s.localBranches)
    (hcfg : s.branchConfig = some v)
    (hconf : confirmLoop env.diffAnswers = true)
    (hrepo : env.createRepoResult = Except.ok ())
    (hci : monitor_pr_status env.polls = some GateOutcome.ok)
    (hdl : env.downloadResult = Except.ok files)
    (hrel : s.release = some r)
    (hdraft : r.draft = false)
    (hans : pyLower env.publicAnswer ≠ "y") :
    (resume env v s).outcome = Outcome.exit 1 ∧
    (resume env v s).state.release = some r ∧
    (resume env v s).state.releaseAssets = s.releaseAssets ∧
    Effect.deleteAssets ∉ (resume env v s).trace ∧
    Effect.uploadAssets ∉ (resume env v s).trace := by
  obtain ⟨hdiff, hcbc⟩ | ⟨hdiff, hcbc⟩ :=
    create_bump_commit_ok_cases env (branch_name v) s v hcfg hconf hrepo <;>
  · simp only [resume, resumeBody, if_pos hbr, hcbc, hci, hdl]
    by_cases hpr : s.prExists <;>
      simp [hpr, hrel, hdraft, hans, handleAction]

/-- C4: `resume` is idempotent: running `resume` again immediately, with no
intervening external state change (the same environment), leaves the world
state exactly as after the first run and yields the same outcome; in
particular the second run adds no bump commit (the bump step skips committing
on an empty diff), creates no second pull request, and creates no duplicate
release record. -/
theorem resume_idempotent (env : Env) (v : String) (s : State) :
    (resume env v (resume env v s).state).state = (resume env v s).state ∧
    (resume env v (resume env v s).state).outcome = (resume env v s).outcome ∧
    (resume env v (resume env v s).state).state.commitCount =
      (resume env v s).state.commitCount ∧
    (resume env v (resume env v s).state).state.prCreateCount =
      (resume env v s).state.prCreateCount ∧
    (resume env v (resume env v s).state).state.releaseCreateCount =
      (resume env v s).state.releaseCreateCount := by
  obtain ⟨hst, hvd⟩ := resumeBody_idem env v s
  have hstate2 : (resume env v (resume env v s).state).state = (resume env v s).state := by
    simp only [resume, handleAction_state]
    exact hst
  refine ⟨hstate2, ?_, by rw [hstate2], by rw [hstate2], by rw [hstate2]⟩
  simp only [resume, handleAction_state, handleAction_outcome_eq_verdict]
  rw [hvd]

/-- Witness for C6: with the operator answering `n`, resuming over a public
release aborts with exit code 1 and touches no hosted asset. -/
theorem resume_public_release_requires_confirmation_witness :
    (resume sampleEnv "1.21.1" publicRelState).outcome = Outcome.exit 1 ∧
    (resume sampleEnv "1.21.1" publicRelState).state.release =
      some { draft := false, prerelease := false } ∧
    (resume sampleEnv "1.21.1" publicRelState).state.releaseAssets =
      publicRelState.releaseAssets ∧
    Effect.deleteAssets ∉ (resume sampleEnv "1.21.1" publicRelState).trace ∧
    Effect.uploadAssets ∉ (resume sampleEnv "1.21.1" publicRelState).trace :=
  resume_public_release_requires_confirmation sampleEnv "1.21.1" publicRelState
    { draft := false, prerelease := false } ["bin1", "bin2"]
    (by decide) rfl (by decide) rfl (by decide) rfl rfl rfl (by decide)

/-- C7: during `resume`, whenever assets are uploaded to the hosted release
(whether it was just created or already existed), the existing hosted assets
are deleted immediately before: every trace containing `uploadAssets` has a
`deleteAssets` directly preceding it. -/
theorem resume_deletes_before_upload (env : Env) (v : String) (s : State)
    (h : Effect.uploadAssets ∈ (resume env v s).trace) :
    ∃ l1 l2, (resume env v s).trace =
      l1 ++ Effect.deleteAssets :: Effect.uploadAssets :: l2 := by
  rw [resume, handleAction_trace] at h ⊢
  rcases resumeBody_upload_shape env v s with hno | hex
  · exact absurd h hno
  · exact hex

/-- Witness for C7: in the sample happy-path run the upload is preceded by the
asset deletion. -/
theorem resume_deletes_before_upload_witness :
    ∃ l1 l2, (resume sampleEnv "1.21.1" sampleState).trace =
      l1 ++ Effect.deleteAssets :: Effect.uploadAssets :: l2 :=
  resume_deletes_before_upload sampleEnv "1.21.1" sampleState (by decide)

end ReleaseScript
